import Mathlib

/-!
# nginx-ingress-vault: the Vault reader

A shallow embedding of `nginx-ingress-vault/vault/vault_reader.go`.

* Go pointers that may be nil are `Option`s; a nil dereference is the outcome
  `Outcome.panicked`.
* The collaborators the code talks to (the Vault client, the logger, the ticker) are not
  part of the program.  A call to one of them is recorded as an `Event` in the trace of the
  run, and what the collaborator answers is an input of the model (`Client`, `Env`).
* `int` is the 64-bit Go `int`; `time.Duration` is `int64`, with wrap-around multiplication.
-/

namespace Vault

/-! ## Values held in a secret's data map -/

/-- The dynamic values of a `map[string]interface{}` decoded from the JSON body of a Vault
response: `nil`, `bool`, `json.Number` (kept as its literal), `string`, `[]interface{}` and
`map[string]interface{}`. -/
inductive Value where
  | null
  | bool (b : Bool)
  | number (literal : String)
  | str (s : String)
  | array (elems : List Value)
  | object (fields : List (String × Value))

/-- Insert a rendered map entry in key order; `fmt` prints the entries of a map sorted by
key. -/
def insertByKey (e : String × String) : List (String × String) → List (String × String)
  | [] => [e]
  | x :: xs => if e.1 < x.1 then e :: x :: xs else x :: insertByKey e xs

/-- Rendered map entries in key order. -/
def sortByKey : List (String × String) → List (String × String)
  | [] => []
  | x :: xs => insertByKey x (sortByKey xs)

mutual
/-- The text `fmt.Sprintf("%v", v)` yields for a value: `<nil>` for nil, the text itself for
strings and number literals, `[a b]` for slices and `map[k:v]` for maps. -/
def Value.format : Value → String
  | .null => "<nil>"
  | .bool b => if b then "true" else "false"
  | .number l => l
  | .str s => s
  | .array xs => "[" ++ " ".intercalate (formatElems xs) ++ "]"
  | .object kvs =>
      "map[" ++ " ".intercalate ((sortByKey (formatFields kvs)).map fun e => e.1 ++ ":" ++ e.2)
        ++ "]"
/-- The elements of a slice, each rendered with `%v`. -/
def formatElems : List Value → List String
  | [] => []
  | v :: vs => v.format :: formatElems vs
/-- The entries of a map, each value rendered with `%v`. -/
def formatFields : List (String × Value) → List (String × String)
  | [] => []
  | (k, v) :: rest => (k, v.format) :: formatFields rest
end

/-- The data map of a secret, `map[string]interface{}`, as an association list. -/
abbrev Data := List (String × Value)

/-- The indexing expression `m[k]` of Go: the stored value, or the zero value of
`interface{}`, nil, when the key is absent (also when the map itself is nil, `[]`). -/
def Data.index (m : Data) (k : String) : Value :=
  match m.lookup k with
  | some v => v
  | none => Value.null

/-- The part of `vault.Secret` that the code reads. -/
structure Secret where
  Data : Data

/-- The part of `vault.SealStatusResponse` that the code reads. -/
structure SealStatusResponse where
  Sealed : Bool

/-! ## Errors, panics and runs -/

/-- Go `error` values met by the code. -/
inductive GoError where
  /-- A `*strconv.NumError` with `ErrSyntax`, for the input given. -/
  | parseSyntaxErr (input : String)
  /-- A `*strconv.NumError` with `ErrRange`, for the input given. -/
  | parseRangeErr (input : String)
  /-- An error built by `fmt.Errorf`, with its message. -/
  | errorf (msg : String)
  /-- An error handed back by the Vault client. -/
  | client (msg : String)
  deriving DecidableEq, Repr

/-- Run-time panics the code can raise. -/
inductive Panic where
  | nilPointerDereference
  | nonPositiveTickerInterval
  deriving DecidableEq, Repr

/-- Calls to the collaborators, in the order they are made. -/
inductive Event where
  /-- A call of `log.Info` or `log.Infof`, with the formatted message. -/
  | logInfo (msg : String)
  /-- The `log.Errorf` of `RenewToken`, with its two arguments. -/
  | logRenewError (err : Option GoError) (tokenData : Option Secret)
  /-- The call `vault.NewClient(nil)`. -/
  | newClient
  /-- The call `time.NewTicker(d)`, `d` in nanoseconds. -/
  | newTicker (d : Int)
  /-- The call `Client.Sys().SealStatus()`. -/
  | sealStatus
  /-- The call `Client.Logical().Read(path)`. -/
  | read (path : String)
  /-- The call `Client.Logical().Write(path, body)`. -/
  | write (path : String) (body : Option Data)

/-- How a call ends: it returns, it panics, or it is still waiting on a channel when the
input considered is used up. -/
inductive Outcome (α : Type) where
  | returned (a : α)
  | panicked (p : Panic)
  | blocked

/-- A run of a function: how it ends and the collaborator calls it made. -/
structure Run (α : Type) where
  outcome : Outcome α
  trace : List Event

/-! ## The reader -/

/-- The answers of the store behind a `*vault.Client`.  `Write` also takes the number of
writes made before, so that successive writes may be answered differently. -/
structure Client where
  SealStatus : Option SealStatusResponse × Option GoError
  Read : String → Option Secret × Option GoError
  Write : Nat → String → Option Data → Option Secret × Option GoError

/-- A `*time.Ticker`, with its period in nanoseconds. -/
structure Ticker where
  d : Int

structure VaultReader where
  Enabled : Bool
  Client : Option Client
  TokenRefreshInterval : Option Ticker

structure Cert where
  Filename : String
  Secret : String
  deriving DecidableEq, Repr

/-- The function `getCertFromData`.  `data` is the secret behind the pointer: the only call
sites pass a pointer already checked to be non-nil. -/
def getCertFromData (data : Secret) (dataKey : String) (hostname : String) :
    Option Cert × Option GoError :=
  let secret := (data.Data.index dataKey).format
  if secret = "" then
    let e := GoError.errorf ("No " ++ dataKey ++ " found for " ++ hostname)
    (none, some e)
  else
    let path := hostname ++ "." ++ dataKey
    (some { Secret := secret, Filename := path }, none)

/-- The method `GetSecretsForHost`. -/
def GetSecretsForHost (r : VaultReader) (hostname : String) :
    Run (Option Cert × Option Cert × Option GoError) :=
  let vaultPath := "secret/ssl/" ++ hostname
  match r.Client with
  | none => ⟨.panicked .nilPointerDereference, []⟩
  | some client =>
    match client.Read vaultPath with
    | (some keySecretData, none) =>
      match getCertFromData keySecretData "key" hostname with
      | (_, some err) =>
        ⟨.returned (none, none, some err),
          [.read vaultPath, .logInfo ("Found secret for " ++ hostname)]⟩
      | (key, none) =>
        match getCertFromData keySecretData "crt" hostname with
        | (_, some err) =>
          ⟨.returned (none, none, some err),
            [.read vaultPath, .logInfo ("Found secret for " ++ hostname)]⟩
        | (crt, none) =>
          ⟨.returned (key, crt, none),
            [.read vaultPath, .logInfo ("Found secret for " ++ hostname)]⟩
    | _ =>
      let e := GoError.errorf ("No secret for " ++ hostname)
      ⟨.returned (none, none, some e), [.read vaultPath]⟩

/-- The method `Ready`. -/
def Ready (r : VaultReader) : Run Bool :=
  if !r.Enabled then
    ⟨.returned true, []⟩
  else
    match r.Client with
    | none => ⟨.panicked .nilPointerDereference, []⟩
    | some client =>
      match client.SealStatus with
      | (some status, none) => ⟨.returned (!status.Sealed), [.sealStatus]⟩
      | _ => ⟨.returned false, [.sealStatus, .logInfo "Error retrieving vault status"]⟩

/-- The constant `tokenPath` of `RenewToken`. -/
def tokenPath : String := "/auth/token/renew-self"

/-- What `RenewToken` logs for the answer `(tokenData, err)` to a renewal write. -/
def renewLogged (resp : Option Secret × Option GoError) : Event :=
  let (tokenData, err) := resp
  if err.isSome || tokenData.isNone then
    .logRenewError err tokenData
  else
    .logInfo "Successfully renewed Vault token.\n"

/-- Whether an event is a write to the store. -/
def Event.isWrite : Event → Bool
  | .write _ _ => true
  | _ => false

/-- The body of the loop of `RenewToken`, run once per tick received; `n` is the number of
ticks handled before.  When the ticks considered are used up the loop waits for the next
one: a ticker's channel is never closed. -/
def renewLoop (client : Option Client) (n : Nat) : List Nat → Run Unit
  | [] => ⟨.blocked, []⟩
  | _ :: ticks =>
    match client with
    | none => ⟨.panicked .nilPointerDereference, []⟩
    | some c =>
      let rest := renewLoop client (n + 1) ticks
      ⟨rest.outcome,
        .write tokenPath none :: renewLogged (c.Write n tokenPath none) :: rest.trace⟩

/-- The method `RenewToken`, on the ticks (their times) that the ticker delivers. -/
def RenewToken (r : VaultReader) (ticks : List Nat) : Run Unit :=
  match r.TokenRefreshInterval with
  | none => ⟨.panicked .nilPointerDereference, []⟩
  | some _ => renewLoop r.Client 0 ticks

/-! ## Construction -/

/-- The function `strconv.ParseBool`. -/
def ParseBool (str : String) : Bool × Option GoError :=
  if str = "1" ∨ str = "t" ∨ str = "T" ∨ str = "true" ∨ str = "TRUE" ∨ str = "True" then
    (true, none)
  else if str = "0" ∨ str = "f" ∨ str = "F" ∨ str = "false" ∨ str = "FALSE" ∨ str = "False" then
    (false, none)
  else
    (false, some (.parseSyntaxErr str))

/-- The number written by a string of decimal digits. -/
def digitsValue (cs : List Char) : Nat :=
  cs.foldl (fun n ch => n * 10 + (ch.toNat - '0'.toNat)) 0

/-- The function `strconv.Atoi` for the 64-bit `int`: an optional sign and at least one
decimal digit, nothing else; out of range the nearest bound comes back with a range
error. -/
def Atoi (s : String) : Int × Option GoError :=
  let digits :=
    match s.toList with
    | '-' :: ds => ds
    | '+' :: ds => ds
    | ds => ds
  let neg := s.toList.head? = some '-'
  if digits = [] ∨ digits.all Char.isDigit = false then
    (0, some (.parseSyntaxErr s))
  else
    let un := digitsValue digits
    if neg then
      if un > 2 ^ 63 then (-(2 ^ 63), some (.parseRangeErr s)) else (-(un : Int), none)
    else
      if un ≥ 2 ^ 63 then (2 ^ 63 - 1, some (.parseRangeErr s)) else ((un : Int), none)

/-- Two's-complement wrap-around of `int64` arithmetic. -/
def wrapInt64 (x : Int) : Int :=
  (x + 2 ^ 63) % 2 ^ 64 - 2 ^ 63

/-- The constant `time.Minute`, in nanoseconds. -/
def Minute : Int := 60 * 1000000000

/-- What `NewVaultReader` reads from its surroundings: the four environment variables
(`os.Getenv` yields the empty string for one that is not set) and what
`vault.NewClient(nil)` answers, a client or an error. -/
structure Env where
  VAULT_ENABLED : String
  VAULT_ADDR : String
  VAULT_TOKEN : String
  VAULT_REFRESH_INTERVAL : String
  newClient : Except GoError Client

/-- The function `NewVaultReader`. -/
def NewVaultReader (env : Env) : Run (VaultReader × Option GoError) :=
  let enabledFlag := env.VAULT_ENABLED
  let address := env.VAULT_ADDR
  let token := env.VAULT_TOKEN
  let refreshFlag := env.VAULT_REFRESH_INTERVAL
  let (parsedInterval, err) := Atoi refreshFlag
  let refreshInterval := if err.isSome then 10 else parsedInterval
  let (parsedEnabled, _) := ParseBool enabledFlag
  let enabled := if err.isSome then true else parsedEnabled
  if address = "" ∨ token = "" then
    ⟨.returned ({ Enabled := false, Client := none, TokenRefreshInterval := none }, none),
      [.logInfo "Vault not configured"]⟩
  else
    match env.newClient with
    | .error err =>
      ⟨.returned ({ Enabled := false, Client := none, TokenRefreshInterval := none }, some err),
        [.newClient]⟩
    | .ok client =>
      let d := wrapInt64 (Minute * refreshInterval)
      if d ≤ 0 then
        ⟨.panicked .nonPositiveTickerInterval, [.newClient, .newTicker d]⟩
      else
        ⟨.returned
            ({ Enabled := enabled, Client := some client, TokenRefreshInterval := some ⟨d⟩ },
              none),
          [.newClient, .newTicker d]⟩

/-! ## Sample inputs -/

/-- A store that holds key and certificate for one host, is unsealed, and renews tokens. -/
def exampleClient : Client where
  SealStatus := (some ⟨false⟩, none)
  Read := fun path =>
    if path = "secret/ssl/example.com" then
      (some ⟨[("key", .str "KEYDATA"), ("crt", .str "CRTDATA")]⟩, none)
    else
      (none, none)
  Write := fun _ _ _ => (some ⟨[]⟩, none)

/-- A store whose entry for the host has a key and no certificate. -/
def keyOnlyClient : Client where
  SealStatus := (some ⟨false⟩, none)
  Read := fun _ => (some ⟨[("key", .str "KEYDATA")]⟩, none)
  Write := fun _ _ _ => (some ⟨[]⟩, none)

/-- An enabled gateway on the example store, with a ten-minute timer. -/
def exampleReader : VaultReader where
  Enabled := true
  Client := some exampleClient
  TokenRefreshInterval := some ⟨600000000000⟩

/-- A configuration with address and token, the enabled flag set to false and a ten-minute
renewal interval, for which the client is built. -/
def flagFalseEnv : Env where
  VAULT_ENABLED := "false"
  VAULT_ADDR := "http://vault:8200"
  VAULT_TOKEN := "tok"
  VAULT_REFRESH_INTERVAL := "10"
  newClient := .ok exampleClient

/-- A store that answers every call with an error. -/
def failingClient : Client where
  SealStatus := (none, some (.client "connection refused"))
  Read := fun _ => (none, some (.client "connection refused"))
  Write := fun _ _ _ => (none, some (.client "connection refused"))

/-! ## Lookup of a host's secrets -/

/-- A field holding a non-empty string yields the credential named after host and field,
carrying the string unchanged. -/
theorem getCertFromData_str (data : Secret) (dataKey hostname S : String)
    (hfield : data.Data.lookup dataKey = some (Value.str S)) (hS : S ≠ "") :
    getCertFromData data dataKey hostname = (some ⟨hostname ++ "." ++ dataKey, S⟩, none) := by
  simp [getCertFromData, Data.index, hfield, Value.format, hS]

/-- A field that the data map does not hold is rendered as `<nil>` and yields a credential
with that text, not an error. -/
theorem getCertFromData_absent (data : Secret) (dataKey hostname : String)
    (hfield : data.Data.lookup dataKey = none) :
    getCertFromData data dataKey hostname =
      (some ⟨hostname ++ "." ++ dataKey, "<nil>"⟩, none) := by
  have hne : ¬("<nil>" = "") := by decide
  simp [getCertFromData, Data.index, hfield, Value.format, hne]

/-- Extraction of a field yields a credential and no error, or no credential and an
error. -/
theorem getCertFromData_cases (data : Secret) (dataKey hostname : String) :
    (∃ cert, getCertFromData data dataKey hostname = (some cert, none)) ∨
      (∃ e, getCertFromData data dataKey hostname = (none, some e)) := by
  unfold getCertFromData
  by_cases h : (data.Data.index dataKey).format = ""
  · simp only [if_pos h]
    exact Or.inr ⟨_, rfl⟩
  · simp only [if_neg h]
    exact Or.inl ⟨_, rfl⟩

/-- C1: when the read at `secret/ssl/H` succeeds with a data map whose "key" and "crt"
fields are non-empty strings `K` and `C`, `GetSecretsForHost H` makes that single read and
returns the key credential `H.key` with secret `K`, the crt credential `H.crt` with secret
`C`, and no error. -/
theorem GetSecretsForHost_populated (r : VaultReader) (client : Client) (H K C : String)
    (data : Secret) (hclient : r.Client = some client)
    (hread : client.Read ("secret/ssl/" ++ H) = (some data, none))
    (hkey : data.Data.lookup "key" = some (Value.str K)) (hK : K ≠ "")
    (hcrt : data.Data.lookup "crt" = some (Value.str C)) (hC : C ≠ "") :
    GetSecretsForHost r H =
      ⟨.returned (some ⟨H ++ ".key", K⟩, some ⟨H ++ ".crt", C⟩, none),
        [.read ("secret/ssl/" ++ H), .logInfo ("Found secret for " ++ H)]⟩ := by
  have hk : H ++ "." ++ "key" = H ++ ".key" := by rw [String.append_assoc]; rfl
  have hc : H ++ "." ++ "crt" = H ++ ".crt" := by rw [String.append_assoc]; rfl
  simp only [GetSecretsForHost, hclient, hread, getCertFromData_str data "key" H K hkey hK,
    getCertFromData_str data "crt" H C hcrt hC, hk, hc]

/-- The example of the specification: host `example.com` with `KEYDATA` and `CRTDATA`. -/
theorem GetSecretsForHost_populated_witness :
    GetSecretsForHost ⟨true, some exampleClient, none⟩ "example.com" =
      ⟨.returned (some ⟨"example.com.key", "KEYDATA"⟩, some ⟨"example.com.crt", "CRTDATA"⟩,
          none),
        [.read "secret/ssl/example.com", .logInfo "Found secret for example.com"]⟩ :=
  GetSecretsForHost_populated ⟨true, some exampleClient, none⟩ exampleClient "example.com"
    "KEYDATA" "CRTDATA" ⟨[("key", .str "KEYDATA"), ("crt", .str "CRTDATA")]⟩ rfl rfl rfl
    (by decide) rfl (by decide)

/-- C2, evaluated: for an entry that holds a key and no "crt" field, the lookup renders the
absent field as the text `<nil>`, which is not empty, and returns both credentials and no
error. -/
theorem GetSecretsForHost_missing_crt :
    GetSecretsForHost ⟨true, some keyOnlyClient, none⟩ "example.com" =
      ⟨.returned (some ⟨"example.com.key", "KEYDATA"⟩, some ⟨"example.com.crt", "<nil>"⟩,
          none),
        [.read "secret/ssl/example.com", .logInfo "Found secret for example.com"]⟩ := by
  rfl

/-- C3: when the read at `secret/ssl/H` returns an error or no secret, `GetSecretsForHost H`
returns no key credential, no crt credential and the error "No secret for H"; the run is
that read alone, and the result does not depend on any data the response carries. -/
theorem GetSecretsForHost_not_found (r : VaultReader) (client : Client) (H : String)
    (hclient : r.Client = some client)
    (hread : (client.Read ("secret/ssl/" ++ H)).2 ≠ none ∨
      (client.Read ("secret/ssl/" ++ H)).1 = none) :
    GetSecretsForHost r H =
      ⟨.returned (none, none, some (.errorf ("No secret for " ++ H))),
        [.read ("secret/ssl/" ++ H)]⟩ := by
  simp only [GetSecretsForHost, hclient]
  rcases hresp : client.Read ("secret/ssl/" ++ H) with ⟨secret, err⟩
  rw [hresp] at hread
  cases secret <;> cases err <;> simp_all

/-- A store that fails every read has no secret for `example.com`. -/
theorem GetSecretsForHost_not_found_witness :
    GetSecretsForHost ⟨true, some failingClient, none⟩ "example.com" =
      ⟨.returned (none, none, some (.errorf "No secret for example.com")),
        [.read "secret/ssl/example.com"]⟩ :=
  GetSecretsForHost_not_found ⟨true, some failingClient, none⟩ failingClient "example.com" rfl
    (Or.inl (by simp [failingClient]))

/-- C4: whatever the store answers to the read, `GetSecretsForHost` returns either both
credentials and no error, or no credential and an error. -/
theorem GetSecretsForHost_atomic (r : VaultReader) (client : Client) (H : String)
    (hclient : r.Client = some client) :
    (∃ key crt, (GetSecretsForHost r H).outcome = .returned (some key, some crt, none)) ∨
      (∃ e, (GetSecretsForHost r H).outcome = .returned (none, none, some e)) := by
  simp only [GetSecretsForHost, hclient]
  rcases hresp : client.Read ("secret/ssl/" ++ H) with ⟨secret, err⟩
  cases secret with
  | none => cases err <;> exact Or.inr ⟨_, rfl⟩
  | some data =>
    cases err with
    | some e => exact Or.inr ⟨_, rfl⟩
    | none =>
      rcases getCertFromData_cases data "key" H with ⟨key, hk⟩ | ⟨e, hk⟩
      · rcases getCertFromData_cases data "crt" H with ⟨crt, hc⟩ | ⟨e, hc⟩
        · exact Or.inl ⟨key, crt, by simp [hk, hc]⟩
        · exact Or.inr ⟨e, by simp [hk, hc]⟩
      · exact Or.inr ⟨e, by simp [hk]⟩

/-- For the entry without certificate the run returns both credentials. -/
theorem GetSecretsForHost_atomic_witness :
    (∃ key crt, (GetSecretsForHost ⟨true, some keyOnlyClient, none⟩ "h").outcome =
        .returned (some key, some crt, none)) ∨
      (∃ e, (GetSecretsForHost ⟨true, some keyOnlyClient, none⟩ "h").outcome =
        .returned (none, none, some e)) :=
  GetSecretsForHost_atomic ⟨true, some keyOnlyClient, none⟩ keyOnlyClient "h" rfl

/-! ## Readiness -/

/-- C5: `Ready` returns true exactly when the gateway is disabled, or it is enabled and the
seal-status query succeeds with a status that reports not sealed.  A disabled gateway
answers without any call to the store; an enabled one answers false when the query errors,
yields no status, or reports sealed. -/
theorem Ready_iff (r : VaultReader) (client : Client)
    (hclient : r.Enabled = true → r.Client = some client) :
    (∃ b, (Ready r).outcome = .returned b ∧
      (b = true ↔ r.Enabled = false ∨
        (r.Enabled = true ∧
          ∃ status, client.SealStatus = (some status, none) ∧ status.Sealed = false))) ∧
    (r.Enabled = false → Ready r = ⟨.returned true, []⟩) ∧
    (r.Enabled = true →
      (client.SealStatus.2 ≠ none ∨ client.SealStatus.1 = none ∨
        ∃ status, client.SealStatus.1 = some status ∧ status.Sealed = true) →
      (Ready r).outcome = .returned false ∧ (Ready r).trace.head? = some .sealStatus) := by
  cases hen : r.Enabled with
  | false =>
    refine ⟨⟨true, ?_, by simp⟩, fun _ => ?_, fun h => by cases h⟩ <;> simp [Ready, hen]
  | true =>
    have hc := hclient hen
    rcases hseal : client.SealStatus with ⟨status, err⟩
    cases status with
    | none => cases err <;> simp [Ready, hen, hc, hseal]
    | some st =>
      cases err with
      | some e => simp [Ready, hen, hc, hseal]
      | none => cases hs : st.Sealed <;> simp [Ready, hen, hc, hseal, hs]

/-- An enabled gateway on an unsealed store. -/
theorem Ready_iff_witness :
    (exampleReader.Enabled = true → exampleReader.Client = some exampleClient) ∧
    (∃ b, (Ready exampleReader).outcome = .returned b ∧
      (b = true ↔ exampleReader.Enabled = false ∨
        (exampleReader.Enabled = true ∧
          ∃ status, exampleClient.SealStatus = (some status, none) ∧ status.Sealed = false))) :=
  ⟨fun _ => rfl, (Ready_iff exampleReader exampleClient (fun _ => rfl)).1⟩

/-! ## Construction -/

/-- C6: with an empty address or an empty token `NewVaultReader` returns the disabled gateway
without client and timer and no error, whatever the other two variables hold; the run logs
and does not construct a client. -/
theorem NewVaultReader_not_configured (env : Env)
    (h : env.VAULT_ADDR = "" ∨ env.VAULT_TOKEN = "") :
    NewVaultReader env =
        ⟨.returned (⟨false, none, none⟩, none), [.logInfo "Vault not configured"]⟩ ∧
      (NewVaultReader env).trace.all (fun ev => !(ev matches .newClient)) = true := by
  have hrun : NewVaultReader env =
      ⟨.returned (⟨false, none, none⟩, none), [.logInfo "Vault not configured"]⟩ := by
    unfold NewVaultReader
    simp only [if_pos h]
  rw [hrun]
  exact ⟨rfl, rfl⟩

/-- An enabled flag and an interval, a token, and no address. -/
theorem NewVaultReader_not_configured_witness :
    NewVaultReader ⟨"true", "", "tok", "5", .ok exampleClient⟩ =
        ⟨.returned (⟨false, none, none⟩, none), [.logInfo "Vault not configured"]⟩ ∧
      (NewVaultReader ⟨"true", "", "tok", "5", .ok exampleClient⟩).trace.all
        (fun ev => !(ev matches .newClient)) = true :=
  NewVaultReader_not_configured ⟨"true", "", "tok", "5", .ok exampleClient⟩ (Or.inl rfl)

/-- C7, evaluated: the default of the enabled flag hangs on the error of the interval's
parse.  With the flag missing and the interval `10` the gateway comes back disabled; with
the flag `false` and the interval missing it comes back enabled. -/
theorem NewVaultReader_enabled_default :
    (NewVaultReader ⟨"", "http://vault:8200", "tok", "10", .ok exampleClient⟩).outcome =
        .returned (⟨false, some exampleClient, some ⟨600000000000⟩⟩, none) ∧
      (NewVaultReader ⟨"maybe", "http://vault:8200", "tok", "10", .ok exampleClient⟩).outcome =
        .returned (⟨false, some exampleClient, some ⟨600000000000⟩⟩, none) ∧
      (NewVaultReader ⟨"false", "http://vault:8200", "tok", "", .ok exampleClient⟩).outcome =
        .returned (⟨true, some exampleClient, some ⟨600000000000⟩⟩, none) :=
  ⟨rfl, rfl, rfl⟩

/-- C8: with address and token present and client construction failing with `E`,
`NewVaultReader` returns the disabled gateway without client and timer together with `E`,
whatever the other two variables hold. -/
theorem NewVaultReader_client_failure (env : Env) (E : GoError)
    (haddr : env.VAULT_ADDR ≠ "") (htoken : env.VAULT_TOKEN ≠ "")
    (hnew : env.newClient = .error E) :
    NewVaultReader env = ⟨.returned (⟨false, none, none⟩, some E), [.newClient]⟩ := by
  have hcfg : ¬(env.VAULT_ADDR = "" ∨ env.VAULT_TOKEN = "") := by
    rintro (h | h)
    · exact haddr h
    · exact htoken h
  unfold NewVaultReader
  simp only [if_neg hcfg, hnew]

/-- A configured gateway whose client cannot be built. -/
theorem NewVaultReader_client_failure_witness :
    NewVaultReader ⟨"true", "http://vault:8200", "tok", "5", .error (.client "bad config")⟩ =
      ⟨.returned (⟨false, none, none⟩, some (.client "bad config")), [.newClient]⟩ :=
  NewVaultReader_client_failure
    ⟨"true", "http://vault:8200", "tok", "5", .error (.client "bad config")⟩
    (.client "bad config") (by decide) (by decide) rfl

/-- A gateway that `NewVaultReader` returns has neither client nor timer, or has both. -/
theorem NewVaultReader_shape (env : Env) (r : VaultReader) (e : Option GoError)
    (h : (NewVaultReader env).outcome = .returned (r, e)) :
    r = ⟨false, none, none⟩ ∨
      ∃ enabled client ticker, r = ⟨enabled, some client, some ticker⟩ := by
  unfold NewVaultReader at h
  by_cases hcfg : env.VAULT_ADDR = "" ∨ env.VAULT_TOKEN = ""
  · simp only [if_pos hcfg] at h
    exact Or.inl (Prod.mk.inj (Outcome.returned.inj h)).1.symm
  · simp only [if_neg hcfg] at h
    cases hnew : env.newClient with
    | error err =>
      simp only [hnew] at h
      exact Or.inl (Prod.mk.inj (Outcome.returned.inj h)).1.symm
    | ok client =>
      simp only [hnew] at h
      split_ifs at h
      all_goals exact Or.inr ⟨_, _, _, (Prod.mk.inj (Outcome.returned.inj h)).1.symm⟩

/-- C9, as stated, fails: with the enabled flag `false`, address, token and interval `10`,
the gateway returned is disabled and yet holds a client and a timer, and the renewal loop
writes to the store on a tick. -/
theorem NewVaultReader_disabled_with_timer :
    ∃ r e, (NewVaultReader flagFalseEnv).outcome = .returned (r, e) ∧ r.Enabled = false ∧
      r.Client.isSome = true ∧ r.TokenRefreshInterval.isSome = true ∧
      (RenewToken r [0]).trace.any Event.isWrite = true :=
  ⟨⟨false, some exampleClient, some ⟨600000000000⟩⟩, none, rfl, rfl, rfl, rfl, rfl⟩

/-- C9, amended: a gateway that `NewVaultReader` returns holds a client and a timer if it
is enabled, and holds a client exactly when it holds a timer; a gateway returned without a
timer is disabled, and the renewal loop makes no call for it on any ticks. -/
theorem NewVaultReader_enabled_has_timer (env : Env) (r : VaultReader) (e : Option GoError)
    (h : (NewVaultReader env).outcome = .returned (r, e)) :
    (r.Enabled = true → r.Client.isSome = true ∧ r.TokenRefreshInterval.isSome = true) ∧
    (r.Client.isSome = true ↔ r.TokenRefreshInterval.isSome = true) ∧
    (r.TokenRefreshInterval = none →
      r.Enabled = false ∧ ∀ ticks, (RenewToken r ticks).trace = []) := by
  rcases NewVaultReader_shape env r e h with rfl | ⟨enabled, client, ticker, rfl⟩
  · refine ⟨by simp, by simp, fun _ => ⟨rfl, fun ticks => rfl⟩⟩
  · refine ⟨by simp, by simp, fun hnone => by simp at hnone⟩

/-- The gateway built from a configuration with the flag `true` and the interval `10`. -/
theorem NewVaultReader_enabled_has_timer_witness :
    (NewVaultReader ⟨"true", "http://vault:8200", "tok", "10", .ok exampleClient⟩).outcome =
        .returned (exampleReader, none) ∧
      (exampleReader.Enabled = true →
        exampleReader.Client.isSome = true ∧ exampleReader.TokenRefreshInterval.isSome = true) ∧
      (exampleReader.Client.isSome = true ↔ exampleReader.TokenRefreshInterval.isSome = true) ∧
      (exampleReader.TokenRefreshInterval = none →
        exampleReader.Enabled = false ∧ ∀ ticks, (RenewToken exampleReader ticks).trace = []) :=
  ⟨rfl, NewVaultReader_enabled_has_timer
    ⟨"true", "http://vault:8200", "tok", "10", .ok exampleClient⟩ exampleReader none rfl⟩

/-! ## Renewal -/

/-- What is logged for a renewal is not a write. -/
theorem renewLogged_isWrite (resp : Option Secret × Option GoError) :
    (renewLogged resp).isWrite = false := by
  rcases resp with ⟨tokenData, err⟩
  cases tokenData <;> cases err <;> rfl

/-- The trace of the loop: for each tick, in order, the write and what is logged for its
answer. -/
theorem renewLoop_trace (c : Client) (ticks : List Nat) : ∀ n,
    (renewLoop (some c) n ticks).trace =
      (List.range ticks.length).flatMap fun i =>
        [Event.write tokenPath none, renewLogged (c.Write (n + i) tokenPath none)] := by
  induction ticks with
  | nil => intro n; rfl
  | cons t ts ih =>
    intro n
    simp only [renewLoop, ih (n + 1), List.length_cons, List.range_succ_eq_map,
      List.flatMap_cons, List.flatMap_map, Nat.add_zero, List.cons_append, List.nil_append,
      List.cons.injEq, true_and]
    congr 1
    funext i
    simp [Nat.succ_eq_add_one, Nat.add_comm, Nat.add_left_comm]

/-- The writes of the loop: one per tick, all to the renewal path with no body. -/
theorem renewLoop_writes (c : Client) (ticks : List Nat) : ∀ n,
    (renewLoop (some c) n ticks).trace.filter Event.isWrite =
      List.replicate ticks.length (Event.write tokenPath none) := by
  induction ticks with
  | nil => intro n; rfl
  | cons t ts ih =>
    intro n
    simp only [renewLoop, List.length_cons, List.replicate_succ]
    rw [List.filter_cons_of_pos (by rfl),
      List.filter_cons_of_neg (by simp [renewLogged_isWrite]), ih (n + 1)]

/-- The loop does not return: with the ticks used up it waits for the next. -/
theorem renewLoop_outcome (c : Client) (ticks : List Nat) : ∀ n,
    (renewLoop (some c) n ticks).outcome = .blocked := by
  induction ticks with
  | nil => intro n; rfl
  | cons t ts ih => intro n; simp only [renewLoop, ih (n + 1)]

/-- C10: for a gateway with client and timer, any ticks and any answers of the store to the
writes, the run of `RenewToken` is, tick after tick, one write to `/auth/token/renew-self`
with no body followed by the log entry for its answer; the writes number the ticks,
whatever the answers; and the call does not return. -/
theorem RenewToken_one_write_per_tick (r : VaultReader) (client : Client) (ticker : Ticker)
    (ticks : List Nat) (hclient : r.Client = some client)
    (hticker : r.TokenRefreshInterval = some ticker) :
    (RenewToken r ticks).trace =
        ((List.range ticks.length).flatMap fun i =>
          [Event.write "/auth/token/renew-self" none,
            renewLogged (client.Write i "/auth/token/renew-self" none)]) ∧
      (RenewToken r ticks).trace.filter Event.isWrite =
        List.replicate ticks.length (Event.write "/auth/token/renew-self" none) ∧
      (RenewToken r ticks).outcome = .blocked := by
  simp only [RenewToken, hticker, hclient]
  refine ⟨?_, renewLoop_writes client ticks 0, renewLoop_outcome client ticks 0⟩
  rw [renewLoop_trace client ticks 0]
  simp [tokenPath]

/-- Three ticks on a store that fails every write: three writes, each logged as failed. -/
theorem RenewToken_one_write_per_tick_witness :
    (RenewToken ⟨true, some failingClient, some ⟨600000000000⟩⟩ [10, 20, 30]).trace =
        [.write "/auth/token/renew-self" none,
          .logRenewError (some (.client "connection refused")) none,
          .write "/auth/token/renew-self" none,
          .logRenewError (some (.client "connection refused")) none,
          .write "/auth/token/renew-self" none,
          .logRenewError (some (.client "connection refused")) none] ∧
      (RenewToken ⟨true, some failingClient, some ⟨600000000000⟩⟩ [10, 20, 30]).trace.filter
          Event.isWrite =
        List.replicate 3 (Event.write "/auth/token/renew-self" none) ∧
      (RenewToken ⟨true, some failingClient, some ⟨600000000000⟩⟩ [10, 20, 30]).outcome =
        .blocked :=
  RenewToken_one_write_per_tick ⟨true, some failingClient, some ⟨600000000000⟩⟩ failingClient
    ⟨600000000000⟩ [10, 20, 30] rfl rfl

end Vault
